import Mathlib

/-!
Shallow embedding of `src/anemoi/training/diagnostics/mlflow/auth.py`
(class `TokenAuth`): a client-side credential manager that keeps a
long-lived refresh token (persisted) and a short-lived access token
(memory only), exchanging them against a keycloak token server.

Modelling conventions:
* Python's dynamically typed JSON values are `Json` below; `Json.null`
  plays the role of Python's `None`.  `Json.num` covers both int and
  float JSON numbers, modelled exactly with `ℚ` (the program only adds
  and multiplies small decimal constants).
* Wall-clock time (`time.time()`) is a rational `Env.now`, held constant
  over a single operation.
* External collaborators are an explicit environment `Env`: the token
  server (`requests.post` + `raise_for_status` + `.json()` collapsed
  into an `HttpResult` per request), `json.loads`, and the interactive
  username/password prompt.
* Python exceptions become `Except PyError`; an operation returns its
  result together with the state as of the moment it returned or raised,
  plus an `Effects` log of network requests, prompts, environment
  variable writes and persistent-storage writes.
-/

/-- JSON values (also used for Python values held in `TokenAuth` attributes;
`null` is Python `None`). -/
inductive Json where
  | null : Json
  | bool : Bool → Json
  | num : ℚ → Json
  | str : String → Json
  | arr : List Json → Json
  | obj : List (String × Json) → Json

/-- Python truthiness (`if x:`) for the values that can appear here. -/
def pyTruthy : Json → Bool
  | Json.null => false
  | Json.bool b => b
  | Json.num q => if q = 0 then false else true
  | Json.str s => if s = "" then false else true
  | Json.arr xs => !xs.isEmpty
  | Json.obj fs => !fs.isEmpty

/-- `dict.get`: first binding of a key in an association list, if any. -/
def jsonGet (fields : List (String × Json)) (key : String) : Option Json :=
  match fields with
  | [] => none
  | (k, v) :: rest => if k = key then some v else jsonGet rest key

/-- Numeric projection used when reading `refresh_expires` back from the
persisted config; records written by the code always store a number here
(see `TokenAuth.save_config`). -/
def jsonNumD : Json → ℚ
  | Json.num q => q
  | _ => 0

/-- Python `int()` on a float: truncation toward zero. -/
def pyInt (q : ℚ) : Int := if 0 ≤ q then ⌊q⌋ else ⌈q⌉

/-- Outcome of one `requests.post` + `raise_for_status()` + `.json()`
round trip: a 2xx reply with a decoded JSON body, a non-2xx reply
(`raise_for_status` raises `HTTPError`), or any other failure of the
transport or of body decoding (an exception that `_request` re-raises). -/
inductive HttpResult where
  | ok : Json → HttpResult
  | httpError : HttpResult
  | exn : HttpResult

/-- Python exceptions that the embedded code can raise or propagate. -/
inductive PyError where
  | httpError : PyError
  | runtimeError : String → PyError
  | typeError : PyError
  | attributeError : PyError
  | keyError : String → PyError
  | jsonDecodeError : PyError
  | otherError : PyError
deriving DecidableEq

/-- External world for one operation: the clock, the token server
(response per request path and payload), `json.loads` (`none` models a
`JSONDecodeError`), and the interactive credential prompt. -/
structure Env where
  now : ℚ
  server : String → Json → HttpResult
  loads : String → Option Json
  username : String
  password : String

/-- Constructor arguments of `TokenAuth.__init__` (`url`,
`refresh_expire_days`, `enabled`). -/
structure AuthConfig where
  url : String
  refresh_expire_days : Int
  enabled : Bool

/-- The mutable attributes of a `TokenAuth` instance. -/
structure AuthState where
  refresh_token : Json
  refresh_expires : ℚ
  access_token : Json
  access_expires : ℚ

/-- Observable side effects of one operation: network requests made
(path and JSON payload), number of interactive credential prompts,
writes to `os.environ`, and records written to the persistent config
store. -/
structure Effects where
  requests : List (String × Json)
  prompts : Nat
  envWrites : List (String × String)
  writes : List (List (String × Json))

/-- The empty effect log. -/
def noEffects : Effects :=
  { requests := [], prompts := 0, envWrites := [], writes := [] }

/-- Persistent storage: the content of `mlflow-token.json`, or `none`
when the file is absent (`load_config` then yields an empty dict). -/
def Storage : Type := Option (List (String × Json))

namespace TokenAuth

/-- Body of `_request` after the POST returned (source lines 167-189):
checks `status == "ERROR"`, tolerates the error payload arriving either
as a JSON object or as a JSON-encoded string (parsed again with
`json.loads`), returns `{}` on a soft error, otherwise returns the
`response` field; attribute/key/decoding errors propagate, as does
`HTTPError` from `raise_for_status` and any other transport exception. -/
def handle_response (loads : String → Option Json) (res : HttpResult) :
    Except PyError Json :=
  match res with
  | HttpResult.httpError => Except.error PyError.httpError
  | HttpResult.exn => Except.error PyError.otherError
  | HttpResult.ok body =>
    match body with
    | Json.obj fields =>
      let normal : Except PyError Json :=
        match jsonGet fields "response" with
        | some r => Except.ok r
        | none => Except.error (PyError.keyError "response")
      match jsonGet fields "status" with
      | some (Json.str st) =>
        if st = "ERROR" then
          match jsonGet fields "response" with
          | none => Except.error (PyError.keyError "response")
          | some (Json.str s) =>
            match loads s with
            | none => Except.error PyError.jsonDecodeError
            | some (Json.obj _) => Except.ok (Json.obj [])
            | some _ => Except.error PyError.attributeError
          | some (Json.obj _) => Except.ok (Json.obj [])
          | some _ => Except.error PyError.attributeError
        else normal
      | _ => normal
    | _ => Except.error PyError.attributeError

/-- `_request(path, payload)`: performs one POST against the server and
handles the reply; the second component logs the network call. -/
def request (env : Env) (path : String) (payload : Json) :
    Except PyError Json × List (String × Json) :=
  (handle_response env.loads (env.server path payload), [(path, payload)])

/-- `_get_refresh_token(refresh_token, username, password)` (source
lines 138-148): chooses the `refreshtoken` or `newtoken` endpoint by
truthiness of `refresh_token`, then reads `refresh_token` out of the
response dict (`Json.null` when absent, mirroring `dict.get`). -/
def get_refresh_token (env : Env)
    (refresh_token username password : Json) :
    Except PyError Json × List (String × Json) :=
  let pp : String × Json :=
    if pyTruthy refresh_token then
      ("refreshtoken", Json.obj [("refresh_token", refresh_token)])
    else
      ("newtoken", Json.obj [("username", username), ("password", password)])
  match request env pp.1 pp.2 with
  | (Except.error e, reqs) => (Except.error e, reqs)
  | (Except.ok (Json.obj fields), reqs) =>
    (Except.ok ((jsonGet fields "refresh_token").getD Json.null), reqs)
  | (Except.ok _, reqs) => (Except.error PyError.attributeError, reqs)

/-- `_get_access_token()` (source lines 150-159): exchanges the current
refresh token, reads `access_token` and `expires_in` from the response,
and computes `expires = time.time() + expires_in * 0.7`.  When
`expires_in` is `None` (e.g. after a soft server error returned `{}`)
or any other non-number, the multiplication raises `TypeError`
(Python booleans are numeric, so they multiply). -/
def get_access_token (env : Env) (refresh_token : Json) :
    Except PyError (Json × ℚ) × List (String × Json) :=
  let payload := Json.obj [("refresh_token", refresh_token)]
  match request env "refreshtoken" payload with
  | (Except.error e, reqs) => (Except.error e, reqs)
  | (Except.ok (Json.obj fields), reqs) =>
    let token := (jsonGet fields "access_token").getD Json.null
    match (jsonGet fields "expires_in").getD Json.null with
    | Json.num q => (Except.ok (token, env.now + q * (7 / 10)), reqs)
    | Json.bool b =>
      (Except.ok (token, env.now + (if b then 1 else 0) * (7 / 10)), reqs)
    | _ => (Except.error PyError.typeError, reqs)
  | (Except.ok _, reqs) => (Except.error PyError.attributeError, reqs)

/-- The config record written by `_save_config(refresh_token)` (source
lines 130-136): `{"refresh_token": token, "refresh_expires": int(now +
refresh_expire_days * 24 * 60 * 60)}`.  Note the method writes this to
disk but does not assign `self.refresh_expires`. -/
def save_config (cfg : AuthConfig) (env : Env) (refresh_token : Json) :
    List (String × Json) :=
  let refresh_expires : ℚ :=
    env.now + ((cfg.refresh_expire_days : ℚ) * 24 * 60 * 60)
  [("refresh_token", refresh_token),
   ("refresh_expires", Json.num ((pyInt refresh_expires : Int) : ℚ))]

/-- `__init__` state initialisation (source lines 49-55): load the
persisted config and take `refresh_token` (default `None`) and
`refresh_expires` (default `0`); access token fields start absent/zero. -/
def init (store : Storage) : AuthState :=
  let config := store.getD []
  { refresh_token := (jsonGet config "refresh_token").getD Json.null
    refresh_expires := jsonNumD ((jsonGet config "refresh_expires").getD (Json.num 0))
    access_token := Json.null
    access_expires := 0 }

/-- `login(force_credentials)` (source lines 60-100).  Silent renewal is
attempted when `force_credentials` is false, the refresh token is truthy
and unexpired; if that yields no token the operator is prompted and the
`newtoken` endpoint is used.  A truthy new token is stored in
`self.refresh_token` and persisted via `_save_config`; otherwise
`RuntimeError("Failed to log in. Please try again.")` is raised.
Exceptions from either exchange propagate at the point they occur. -/
def login (cfg : AuthConfig) (env : Env) (force_credentials : Bool)
    (s : AuthState) (store : Storage) :
    Except PyError Unit × AuthState × Storage × Effects :=
  if cfg.enabled = false then (Except.ok (), s, store, noEffects)
  else
    let first : Except PyError Json × List (String × Json) :=
      if force_credentials = false ∧ pyTruthy s.refresh_token = true ∧
          s.refresh_expires > env.now then
        get_refresh_token env s.refresh_token Json.null Json.null
      else (Except.ok Json.null, [])
    match first with
    | (Except.error e, reqs1) =>
      (Except.error e, s, store,
        { requests := reqs1, prompts := 0, envWrites := [], writes := [] })
    | (Except.ok tok1, reqs1) =>
      let second : Except PyError Json × List (String × Json) × Nat :=
        if pyTruthy tok1 = false then
          match get_refresh_token env Json.null (Json.str env.username)
              (Json.str env.password) with
          | (r, reqs2) => (r, reqs2, 1)
        else (Except.ok tok1, [], 0)
      match second with
      | (Except.error e, reqs2, p) =>
        (Except.error e, s, store,
          { requests := reqs1 ++ reqs2, prompts := p, envWrites := [],
            writes := [] })
      | (Except.ok newTok, reqs2, p) =>
        if pyTruthy newTok = true then
          let written := save_config cfg env newTok
          (Except.ok (), { s with refresh_token := newTok }, some written,
            { requests := reqs1 ++ reqs2, prompts := p, envWrites := [],
              writes := [written] })
        else
          (Except.error (PyError.runtimeError "Failed to log in. Please try again."),
            s, store,
            { requests := reqs1 ++ reqs2, prompts := p, envWrites := [],
              writes := [] })

/-- `authenticate()` (source lines 102-128): no-op when disabled or
when the in-memory access token is still valid; raises
`RuntimeError("You are not logged in to MLflow. Please log in first.")`
when the refresh token is falsy or expired; otherwise exchanges it,
stores the new access token and expiry, and publishes the token via
`os.environ["MLFLOW_TRACKING_TOKEN"]` (a non-string token makes that
assignment raise `TypeError`, after the attributes were already set). -/
def authenticate (cfg : AuthConfig) (env : Env) (s : AuthState) :
    Except PyError Unit × AuthState × Effects :=
  if cfg.enabled = false then (Except.ok (), s, noEffects)
  else if s.access_expires > env.now then (Except.ok (), s, noEffects)
  else if pyTruthy s.refresh_token = false ∨ s.refresh_expires < env.now then
    (Except.error (PyError.runtimeError "You are not logged in to MLflow. Please log in first."),
      s, noEffects)
  else
    match get_access_token env s.refresh_token with
    | (Except.error e, reqs) =>
      (Except.error e, s,
        { requests := reqs, prompts := 0, envWrites := [], writes := [] })
    | (Except.ok (tok, exp), reqs) =>
      let s' := { s with access_token := tok, access_expires := exp }
      match tok with
      | Json.str t =>
        (Except.ok (), s',
          { requests := reqs, prompts := 0,
            envWrites := [("MLFLOW_TRACKING_TOKEN", t)], writes := [] })
      | _ =>
        (Except.error PyError.typeError, s',
          { requests := reqs, prompts := 0, envWrites := [], writes := [] })

end TokenAuth

/-- States and storage contents reachable by constructing an authority
on a fresh installation (no persisted config yet) and then running any
sequence of `login` / `authenticate` calls in arbitrary environments. -/
inductive Reachable (cfg : AuthConfig) : AuthState → Storage → Prop where
  | boot : Reachable cfg (TokenAuth.init none) none
  | login_step (env : Env) (force : Bool) (s : AuthState) (store : Storage)
      (r : Except PyError Unit) (s' : AuthState) (store' : Storage) (eff : Effects) :
      Reachable cfg s store →
      TokenAuth.login cfg env force s store = (r, s', store', eff) →
      Reachable cfg s' store'
  | auth_step (env : Env) (s : AuthState) (store : Storage)
      (r : Except PyError Unit) (s' : AuthState) (eff : Effects) :
      Reachable cfg s store →
      TokenAuth.authenticate cfg env s = (r, s', eff) →
      Reachable cfg s' store

/-! ## Concrete environments used in the claim analyses -/

/-- An enabled authority with the default 29-day refresh lifetime. -/
def cfg0 : AuthConfig :=
  { url := "https://auth.example", refresh_expire_days := 29, enabled := true }

/-- A 2xx server reply whose payload carries a fresh refresh token. -/
def srvToken : HttpResult :=
  HttpResult.ok (Json.obj [("status", Json.str "OK"),
    ("response", Json.obj [("refresh_token", Json.str "RT")])])

/-- Environment at time 1000 whose server issues `srvToken` to every request. -/
def envNew : Env :=
  { now := 1000, server := fun _ _ => srvToken, loads := fun _ => none,
    username := "u", password := "p" }

/-- A 2xx server reply that soft-rejects: `status: "ERROR"` with an
object-encoded error payload. -/
def srvError : HttpResult :=
  HttpResult.ok (Json.obj [("status", Json.str "ERROR"),
    ("response", Json.obj [("error_description", Json.str "invalid token")])])

/-- Environment at time 1000 whose server soft-rejects every request. -/
def envErr : Env :=
  { now := 1000, server := fun _ _ => srvError, loads := fun _ => none,
    username := "u", password := "p" }

/-- A state holding a valid (unexpired) refresh token and no access token. -/
def sValidRefresh : AuthState :=
  { refresh_token := Json.str "RT", refresh_expires := 2000,
    access_token := Json.null, access_expires := 0 }

/-- A 2xx server reply whose payload carries an access token "T" valid
for 1000 seconds. -/
def srvAccess : HttpResult :=
  HttpResult.ok (Json.obj [("status", Json.str "OK"),
    ("response", Json.obj [("access_token", Json.str "T"),
      ("expires_in", Json.num 1000)])])

/-- Environment at time 1000 whose server issues `srvAccess` to every request. -/
def envAccess : Env :=
  { now := 1000, server := fun _ _ => srvAccess, loads := fun _ => none,
    username := "u", password := "p" }

/-- A 2xx server reply that succeeds but carries no token at all. -/
def srvNoToken : HttpResult :=
  HttpResult.ok (Json.obj [("status", Json.str "OK"), ("response", Json.obj [])])

/-- Environment at time 1000 whose server issues `srvNoToken` to every request. -/
def envNoToken : Env :=
  { now := 1000, server := fun _ _ => srvNoToken, loads := fun _ => none,
    username := "u", password := "p" }

/-- A `json.loads` stand-in that parses every string to an error object. -/
def loadsObj : String → Option Json :=
  fun _ => some (Json.obj [("error_description", Json.str "bad")])

/-- An authority constructed with `enabled = false`. -/
def cfgDisabled : AuthConfig :=
  { url := "https://auth.example", refresh_expire_days := 29, enabled := false }

/-! ## Claim theorems -/

/-- C1: evaluation of the code at a failing input for the claim.  From a
fresh state (no persisted config), `login` obtains the new refresh token
"RT" via the credential path at time 1000 with `refreshLifetimeDays = 29`
and succeeds: the in-memory token becomes "RT" and storage receives the
pair with expiry `int(1000 + 29 * 86400) = 2506600`; but the in-memory
`refresh_expires` stays `0`, not `now + refreshLifetimeDays * 86400 =
2506600` as the claim states — `_save_config` writes the recomputed
expiry to disk without assigning `self.refresh_expires`. -/
theorem login_fresh_leaves_memory_expiry_stale :
    (TokenAuth.login cfg0 envNew false (TokenAuth.init none) none).1 = Except.ok () ∧
    (TokenAuth.login cfg0 envNew false (TokenAuth.init none) none).2.1.refresh_token =
      Json.str "RT" ∧
    (TokenAuth.login cfg0 envNew false (TokenAuth.init none) none).2.2.1 =
      some [("refresh_token", Json.str "RT"), ("refresh_expires", Json.num 2506600)] ∧
    envNew.now + 29 * 86400 = 2506600 ∧
    (TokenAuth.login cfg0 envNew false (TokenAuth.init none) none).2.1.refresh_expires = 0 := by
  refine ⟨rfl, rfl, ?_, by norm_num [envNew], rfl⟩
  have h : (TokenAuth.login cfg0 envNew false (TokenAuth.init none) none).2.2.1 =
      some (TokenAuth.save_config cfg0 envNew (Json.str "RT")) := rfl
  rw [h]
  simp only [TokenAuth.save_config, cfg0, envNew, pyInt]
  norm_num

/-- C2: evaluation of the code at a failing input for the claim.  With a
valid refresh token ("RT", expiring at 2000 > now = 1000) and no access
token, when the server answers the refresh exchange 2xx with
`status: "ERROR"`, `authenticate` raises `TypeError` (inside
`_get_access_token`, `expires_in` is `None` and `None * 0.7` fails), not
the defined `NotLoggedInError` (`RuntimeError`); the soft rejection is
not absorbed. -/
theorem authenticate_soft_rejection_raises_type_error :
    (TokenAuth.authenticate cfg0 envErr sValidRefresh).1 =
      Except.error PyError.typeError ∧
    (TokenAuth.authenticate cfg0 envErr sValidRefresh).2.1 = sValidRefresh := by
  exact ⟨rfl, rfl⟩

/-- C3: evaluation of the code at a failing input for the claim.  The
state after a successful credential-path `login` from a fresh install is
reachable, yet it holds a present (truthy) refresh token together with
`refresh_expires = 0`, violating the claimed invariant that a present
refresh token has a non-zero expiry. -/
theorem reachable_state_has_token_with_zero_expiry :
    Reachable cfg0 (TokenAuth.login cfg0 envNew false (TokenAuth.init none) none).2.1
      (TokenAuth.login cfg0 envNew false (TokenAuth.init none) none).2.2.1 ∧
    pyTruthy (TokenAuth.login cfg0 envNew false (TokenAuth.init none) none).2.1.refresh_token =
      true ∧
    (TokenAuth.login cfg0 envNew false (TokenAuth.init none) none).2.1.refresh_expires = 0 := by
  refine ⟨?_, rfl, rfl⟩
  exact Reachable.login_step envNew false _ _ _ _ _ _ Reachable.boot rfl

/-- Helper: every `login` run either leaves state and storage unchanged
(returning success when disabled, or an error with no storage write), or
succeeds having replaced only `refresh_token` in memory while writing
exactly the `save_config` record to storage. -/
theorem login_cases (cfg : AuthConfig) (env : Env) (force : Bool) (s : AuthState)
    (store : Storage) :
    TokenAuth.login cfg env force s store = (Except.ok (), s, store, noEffects) ∨
    (∃ e eff, TokenAuth.login cfg env force s store = (Except.error e, s, store, eff) ∧
      eff.writes = []) ∨
    (∃ t eff, TokenAuth.login cfg env force s store =
      (Except.ok (), { s with refresh_token := t }, some (TokenAuth.save_config cfg env t),
        eff) ∧ eff.writes = [TokenAuth.save_config cfg env t]) := by
  unfold TokenAuth.login
  by_cases hen : cfg.enabled = false
  · rw [if_pos hen]; exact Or.inl rfl
  · rw [if_neg hen]
    dsimp only
    by_cases hc : force = false ∧ pyTruthy s.refresh_token = true ∧
        s.refresh_expires > env.now
    · rw [if_pos hc]
      rcases hget1 : TokenAuth.get_refresh_token env s.refresh_token Json.null Json.null
        with ⟨r1, reqs1⟩
      cases r1 with
      | error e => exact Or.inr (Or.inl ⟨e, _, rfl, rfl⟩)
      | ok tok1 =>
        dsimp only
        by_cases ht1 : pyTruthy tok1 = false
        · rw [if_pos ht1]
          rcases hget2 : TokenAuth.get_refresh_token env Json.null (Json.str env.username)
            (Json.str env.password) with ⟨r2, reqs2⟩
          cases r2 with
          | error e => exact Or.inr (Or.inl ⟨e, _, rfl, rfl⟩)
          | ok tok2 =>
            dsimp only
            by_cases ht2 : pyTruthy tok2 = true
            · rw [if_pos ht2]
              exact Or.inr (Or.inr ⟨tok2, _, rfl, rfl⟩)
            · rw [if_neg ht2]
              exact Or.inr (Or.inl ⟨_, _, rfl, rfl⟩)
        · rw [if_neg ht1]
          dsimp only
          by_cases ht2 : pyTruthy tok1 = true
          · rw [if_pos ht2]
            exact Or.inr (Or.inr ⟨tok1, _, rfl, rfl⟩)
          · rw [if_neg ht2]
            exact Or.inr (Or.inl ⟨_, _, rfl, rfl⟩)
    · rw [if_neg hc]
      dsimp only
      rw [if_pos (show pyTruthy Json.null = false from rfl)]
      rcases hget2 : TokenAuth.get_refresh_token env Json.null (Json.str env.username)
        (Json.str env.password) with ⟨r2, reqs2⟩
      cases r2 with
      | error e => exact Or.inr (Or.inl ⟨e, _, rfl, rfl⟩)
      | ok tok2 =>
        dsimp only
        by_cases ht2 : pyTruthy tok2 = true
        · rw [if_pos ht2]
          exact Or.inr (Or.inr ⟨tok2, _, rfl, rfl⟩)
        · rw [if_neg ht2]
          exact Or.inr (Or.inl ⟨_, _, rfl, rfl⟩)

/-- Helper: no branch of `authenticate` ever writes to persistent storage. -/
theorem authenticate_writes_nothing (cfg : AuthConfig) (env : Env) (s : AuthState) :
    (TokenAuth.authenticate cfg env s).2.2.writes = [] := by
  unfold TokenAuth.authenticate
  by_cases h1 : cfg.enabled = false
  · rw [if_pos h1]; rfl
  · rw [if_neg h1]
    by_cases h2 : s.access_expires > env.now
    · rw [if_pos h2]; rfl
    · rw [if_neg h2]
      by_cases h3 : pyTruthy s.refresh_token = false ∨ s.refresh_expires < env.now
      · rw [if_pos h3]; rfl
      · rw [if_neg h3]
        rcases hga : TokenAuth.get_access_token env s.refresh_token with ⟨r, reqs⟩
        cases r with
        | error e => rfl
        | ok te =>
          rcases te with ⟨tok, exp⟩
          dsimp only
          cases tok <;> rfl

/-- C4: for every enabled authority with a valid (non-empty, unexpired)
refresh token and an expired or absent access token, if the server
answers the refresh-token exchange with payload
`{access_token: "T", expires_in: 1000}`, then `authenticate` succeeds,
sets the in-memory access token to "T", sets the access expiry to
`now + 0.7 * 1000 = now + 700`, and publishes "T" through the
`MLFLOW_TRACKING_TOKEN` environment variable. -/
theorem authenticate_valid_refresh_sets_access_token
    (cfg : AuthConfig) (env : Env) (s : AuthState) (rt : String)
    (hen : cfg.enabled = true)
    (hax : s.access_expires ≤ env.now)
    (hrt : s.refresh_token = Json.str rt) (hrtne : rt ≠ "")
    (hre : env.now ≤ s.refresh_expires)
    (hsrv : env.server "refreshtoken" (Json.obj [("refresh_token", Json.str rt)]) =
      HttpResult.ok (Json.obj [("status", Json.str "OK"),
        ("response", Json.obj [("access_token", Json.str "T"),
          ("expires_in", Json.num 1000)])])) :
    TokenAuth.authenticate cfg env s =
      (Except.ok (),
        { s with access_token := Json.str "T", access_expires := env.now + 700 },
        { requests := [("refreshtoken", Json.obj [("refresh_token", Json.str rt)])],
          prompts := 0, envWrites := [("MLFLOW_TRACKING_TOKEN", "T")],
          writes := [] }) := by
  have htruthy : pyTruthy s.refresh_token = true := by
    rw [hrt]; simp [pyTruthy, hrtne]
  have hcond : ¬(pyTruthy s.refresh_token = false ∨ s.refresh_expires < env.now) := by
    rw [not_or]
    exact ⟨by simp [htruthy], not_lt.mpr hre⟩
  unfold TokenAuth.authenticate
  rw [hen, if_neg (by simp), if_neg (not_lt.mpr hax), if_neg hcond]
  rw [hrt]
  unfold TokenAuth.get_access_token TokenAuth.request TokenAuth.handle_response
  dsimp only
  rw [hsrv]
  simp [jsonGet]
  norm_num

/-- Witness for C4 at a concrete input: authority `cfg0`, server
`envAccess`, state `sValidRefresh`. -/
theorem authenticate_valid_refresh_sets_access_token_witness :
    TokenAuth.authenticate cfg0 envAccess sValidRefresh =
      (Except.ok (),
        { sValidRefresh with
          access_token := Json.str "T"
          access_expires := envAccess.now + 700 },
        { requests := [("refreshtoken", Json.obj [("refresh_token", Json.str "RT")])],
          prompts := 0, envWrites := [("MLFLOW_TRACKING_TOKEN", "T")],
          writes := [] }) :=
  authenticate_valid_refresh_sets_access_token cfg0 envAccess sValidRefresh "RT" rfl
    (by norm_num : (0 : ℚ) ≤ 1000) rfl (by decide)
    (by norm_num : (1000 : ℚ) ≤ 2000) rfl

/-- C5: for every enabled authority whose access token is absent or
expired, if the refresh token is absent or its expiry is in the past,
`authenticate` fails with the `NotLoggedInError` (`RuntimeError` with
the fixed message), performs zero network calls and leaves the state
unchanged. -/
theorem authenticate_expired_refresh_not_logged_in
    (cfg : AuthConfig) (env : Env) (s : AuthState)
    (hen : cfg.enabled = true)
    (hax : s.access_expires ≤ env.now)
    (h : s.refresh_token = Json.null ∨ s.refresh_expires < env.now) :
    TokenAuth.authenticate cfg env s =
      (Except.error (PyError.runtimeError "You are not logged in to MLflow. Please log in first."),
        s, noEffects) := by
  have hcond : pyTruthy s.refresh_token = false ∨ s.refresh_expires < env.now := by
    rcases h with h | h
    · exact Or.inl (by rw [h]; rfl)
    · exact Or.inr h
  unfold TokenAuth.authenticate
  rw [hen, if_neg (by simp), if_neg (not_lt.mpr hax), if_pos hcond]

/-- Witness for C5 at a concrete input: freshly constructed state with
no refresh token, at time 1000. -/
theorem authenticate_expired_refresh_not_logged_in_witness :
    TokenAuth.authenticate cfg0 envNew (TokenAuth.init none) =
      (Except.error (PyError.runtimeError "You are not logged in to MLflow. Please log in first."),
        TokenAuth.init none, noEffects) :=
  authenticate_expired_refresh_not_logged_in cfg0 envNew (TokenAuth.init none) rfl
    (by norm_num : (0 : ℚ) ≤ 1000) (Or.inl rfl)

/-- C6: for every enabled authority, if both token-acquisition paths
complete without yielding a (truthy) refresh token, `login` fails with
the `AuthenticationError` (`RuntimeError "Failed to log in. Please try
again."`), the in-memory state is unchanged and the previously persisted
storage is left exactly as it was. -/
theorem login_no_token_fails_preserving_storage
    (cfg : AuthConfig) (env : Env) (force : Bool) (s : AuthState) (store : Storage)
    (hen : cfg.enabled = true)
    (h1 : ∃ t r, TokenAuth.get_refresh_token env s.refresh_token Json.null Json.null =
      (Except.ok t, r) ∧ pyTruthy t = false)
    (h2 : ∃ t r, TokenAuth.get_refresh_token env Json.null (Json.str env.username)
      (Json.str env.password) = (Except.ok t, r) ∧ pyTruthy t = false) :
    ∃ eff, TokenAuth.login cfg env force s store =
      (Except.error (PyError.runtimeError "Failed to log in. Please try again."),
        s, store, eff) := by
  obtain ⟨t1, r1, e1, f1⟩ := h1
  obtain ⟨t2, r2, e2, f2⟩ := h2
  unfold TokenAuth.login
  rw [hen]
  rw [if_neg (by simp)]
  by_cases hc : force = false ∧ pyTruthy s.refresh_token = true ∧ s.refresh_expires > env.now
  · rw [if_pos hc, e1]
    dsimp only
    rw [f1]
    rw [if_pos rfl, e2]
    dsimp only
    rw [f2]
    rw [if_neg (by simp)]
    exact ⟨_, rfl⟩
  · rw [if_neg hc]
    dsimp only
    rw [if_pos (show pyTruthy Json.null = false from rfl), e2]
    dsimp only
    rw [f2]
    rw [if_neg (by simp)]
    exact ⟨_, rfl⟩

/-- Witness for C6 at a concrete input: fresh state, a server that
replies successfully but never returns a token. -/
theorem login_no_token_fails_preserving_storage_witness :
    ∃ eff, TokenAuth.login cfg0 envNoToken false (TokenAuth.init none) none =
      (Except.error (PyError.runtimeError "Failed to log in. Please try again."),
        TokenAuth.init none, none, eff) :=
  login_no_token_fails_preserving_storage cfg0 envNoToken false (TokenAuth.init none) none
    rfl
    ⟨Json.null, [("newtoken", Json.obj [("username", Json.null), ("password", Json.null)])],
      rfl, rfl⟩
    ⟨Json.null, [("newtoken", Json.obj [("username", Json.str "u"), ("password", Json.str "p")])],
      rfl, rfl⟩

/-- C7: for every 2xx reply with body `{status: "ERROR", response: r}`,
the request helper returns the empty dict ("no token acquired") without
raising, both when `r` is a JSON object and when `r` is a JSON-encoded
string that parses (a second time) to an object; the two encodings are
treated identically. -/
theorem soft_rejection_both_encodings_return_empty
    (loads : String → Option Json) (ef : List (String × Json)) (str_payload : String)
    (hs : loads str_payload = some (Json.obj ef)) :
    TokenAuth.handle_response loads (HttpResult.ok (Json.obj
        [("status", Json.str "ERROR"), ("response", Json.obj ef)])) =
      Except.ok (Json.obj []) ∧
    TokenAuth.handle_response loads (HttpResult.ok (Json.obj
        [("status", Json.str "ERROR"), ("response", Json.str str_payload)])) =
      Except.ok (Json.obj []) := by
  constructor
  · rfl
  · simp [TokenAuth.handle_response, jsonGet, hs]

/-- Witness for C7 at a concrete input: an error object and a string
that `loadsObj` parses to the same object. -/
theorem soft_rejection_both_encodings_return_empty_witness :
    TokenAuth.handle_response loadsObj (HttpResult.ok (Json.obj
        [("status", Json.str "ERROR"),
         ("response", Json.obj [("error_description", Json.str "bad")])])) =
      Except.ok (Json.obj []) ∧
    TokenAuth.handle_response loadsObj (HttpResult.ok (Json.obj
        [("status", Json.str "ERROR"), ("response", Json.str "raw")])) =
      Except.ok (Json.obj []) :=
  soft_rejection_both_encodings_return_empty loadsObj
    [("error_description", Json.str "bad")] "raw" rfl

/-- C8: a disabled authority is inert: `login` (with any
`force_credentials`) and `authenticate` make no network calls, never
prompt, write nothing to storage or the environment, and leave the
in-memory state, the storage and their results trivial. -/
theorem disabled_instance_is_inert
    (cfg : AuthConfig) (env : Env) (force : Bool) (s : AuthState) (store : Storage)
    (hen : cfg.enabled = false) :
    TokenAuth.login cfg env force s store = (Except.ok (), s, store, noEffects) ∧
    TokenAuth.authenticate cfg env s = (Except.ok (), s, noEffects) := by
  constructor
  · unfold TokenAuth.login
    rw [if_pos hen]
  · unfold TokenAuth.authenticate
    rw [if_pos hen]

/-- Witness for C8 at a concrete input: `cfgDisabled` with a live server
environment and a populated state. -/
theorem disabled_instance_is_inert_witness :
    TokenAuth.login cfgDisabled envNew false sValidRefresh none =
      (Except.ok (), sValidRefresh, none, noEffects) ∧
    TokenAuth.authenticate cfgDisabled envNew sValidRefresh =
      (Except.ok (), sValidRefresh, noEffects) :=
  disabled_instance_is_inert cfgDisabled envNew false sValidRefresh none rfl

/-- C9: for every state and operation, each record written to persistent
storage has exactly the fields `refresh_token` and `refresh_expires`
(so the access token and its expiry are never persisted), and
`authenticate` writes nothing to persistent storage at all. -/
theorem storage_writes_have_only_refresh_fields
    (cfg : AuthConfig) (env : Env) (force : Bool) (s : AuthState) (store : Storage) :
    ((TokenAuth.login cfg env force s store).2.2.2.writes.all
      (fun w => w.map Prod.fst == ["refresh_token", "refresh_expires"])) = true ∧
    (TokenAuth.authenticate cfg env s).2.2.writes = [] := by
  constructor
  · rcases login_cases cfg env force s store with h | ⟨e, eff, h, hw⟩ | ⟨t, eff, h, hw⟩
    · rw [h]; rfl
    · rw [h]; dsimp only; rw [hw]; rfl
    · rw [h]; dsimp only; rw [hw]; simp [TokenAuth.save_config]
  · exact authenticate_writes_nothing cfg env s

/-- C10: `login` never touches the access-token fields: whether it
succeeds or fails, in every environment, the in-memory `access_token`
and `access_expires` after the call equal their values before it. -/
theorem login_preserves_access_fields
    (cfg : AuthConfig) (env : Env) (force : Bool) (s : AuthState) (store : Storage) :
    (TokenAuth.login cfg env force s store).2.1.access_token = s.access_token ∧
    (TokenAuth.login cfg env force s store).2.1.access_expires = s.access_expires := by
  rcases login_cases cfg env force s store with h | ⟨e, eff, h, _⟩ | ⟨t, eff, h, _⟩ <;>
    rw [h] <;> exact ⟨rfl, rfl⟩
